import Mathlib

/-!
Shallow embedding of the nrf-radio crate (src/lib.rs, src/packet.rs,
src/reg_access.rs) and proofs about its mode state machine, validated
value types and receive-address bitmask operations.

Machine integers are modelled as `Nat` with explicit wrap-around
(`% 2^32`) where the Rust code can overflow; fallible Rust functions
returning `Option`/`Result` are modelled with `Option`/`Except`.
Hardware is modelled as a stream of observed `State` values; unbounded
busy-wait loops are modelled with explicit fuel, `none` standing for
non-termination within the given fuel.
-/

namespace NrfRadio

/-- The error type of the library (`Error` in src/lib.rs). -/
inductive Error where
  | UnknownState
  | TimedOut
  | ValueOutOfBounds
  deriving DecidableEq, Repr

/-- Hardware state of the radio (`STATE_A` from the nrf51 PAC, as used by
src/lib.rs: `DISABLED`, `RX_IDLE`, `TX_IDLE`, and the remaining ramp-up /
ramp-down / active states). -/
inductive State where
  | DISABLED
  | RXRU
  | RX_IDLE
  | RX
  | RXDISABLE
  | TXRU
  | TX_IDLE
  | TX
  | TXDISABLE
  deriving DecidableEq, Repr

/-- `FREQUENCY_OFFSET` from src/lib.rs: the offset (in MHz) from which the
frequency is calculated. -/
def FREQUENCY_OFFSET : Nat := 2400

/-- The number of values of the Rust `u32` type. -/
def u32Size : Nat := 4294967296

/-- Rust `u32` subtraction under the release profile: wraps modulo `2^32`
(valid for `a, b < 2^32`). -/
def u32WrapSub (a b : Nat) : Nat := (a + (u32Size - b)) % u32Size

/-- Rust `u32` subtraction under the overflow-checked (debug) profile:
`none` models the overflow panic. -/
def u32CheckedSub (a b : Nat) : Option Nat :=
  if b ≤ a then some (a - b) else none

/-- `Frequency` from src/lib.rs: the frequency, specified as
`2400 MHz + val [MHz]`, with `val` the raw register offset. -/
structure Frequency where
  val : Nat
  deriving DecidableEq, Repr

/-- `Frequency::from_mhz` from src/lib.rs under release (wrapping)
semantics: computes `t = mhz - FREQUENCY_OFFSET` on `u32` and accepts
exactly `t` in `0..=100`. -/
def Frequency.from_mhz (mhz : Nat) : Option Frequency :=
  if u32WrapSub mhz FREQUENCY_OFFSET ≤ 100 then
    some ⟨u32WrapSub mhz FREQUENCY_OFFSET⟩
  else none

/-- `Frequency::from_mhz` from src/lib.rs under overflow-checked (debug)
semantics: the outer `none` models the panic raised when the subtraction
`mhz - FREQUENCY_OFFSET` underflows. -/
def Frequency.from_mhzChecked (mhz : Nat) : Option (Option Frequency) :=
  (u32CheckedSub mhz FREQUENCY_OFFSET).map
    (fun t => if t ≤ 100 then some ⟨t⟩ else none)

/-- `Frequency::as_mhz` from src/lib.rs: convert the inner representation
back to MHz. -/
def Frequency.as_mhz (f : Frequency) : Nat := f.val + FREQUENCY_OFFSET

/-- `Frequency::from_reg_value` from src/lib.rs. -/
def Frequency.from_reg_value (reg_value : Nat) : Option Frequency :=
  if reg_value ≤ 100 then some ⟨reg_value⟩ else none

/-- C2 (corrected): for every u32 MHz value `v` outside `[2400, 2500]`,
`Frequency::from_mhz v` produces no `Frequency`: for `v > 2500` it returns
`none`; for `v < 2400` the internal `u32` subtraction `v - 2400`
underflows, so under wrapping (release) semantics the wrapped intermediate
exceeds 100 and `from_mhz` returns `none`, while under overflow-checked
(debug) semantics the function panics instead of returning. -/
theorem from_mhz_rejects_out_of_range (v : Nat) (hlt : v < u32Size) :
    (2500 < v → Frequency.from_mhz v = none ∧
      Frequency.from_mhzChecked v = some none) ∧
    (v < 2400 → Frequency.from_mhz v = none ∧
      Frequency.from_mhzChecked v = none) := by
  unfold u32Size at hlt
  constructor
  · intro h
    constructor
    · unfold Frequency.from_mhz u32WrapSub FREQUENCY_OFFSET u32Size
      rw [if_neg (by omega)]
    · unfold Frequency.from_mhzChecked u32CheckedSub FREQUENCY_OFFSET
      rw [if_pos (by omega)]
      simp only [Option.map_some']
      rw [if_neg (by omega)]
  · intro h
    constructor
    · unfold Frequency.from_mhz u32WrapSub FREQUENCY_OFFSET u32Size
      rw [if_neg (by omega)]
    · unfold Frequency.from_mhzChecked u32CheckedSub FREQUENCY_OFFSET
      rw [if_neg (by omega)]
      rfl

/-- Witness for `from_mhz_rejects_out_of_range` at `v = 2600` and
`v = 2399`. -/
theorem from_mhz_rejects_out_of_range_witness :
    (Frequency.from_mhz 2600 = none ∧
      Frequency.from_mhzChecked 2600 = some none) ∧
    (Frequency.from_mhz 2399 = none ∧
      Frequency.from_mhzChecked 2399 = none) :=
  ⟨(from_mhz_rejects_out_of_range 2600 (by decide)).1 (by decide),
   (from_mhz_rejects_out_of_range 2399 (by decide)).2 (by decide)⟩

/-- C2 counterexample: at `v = 2399` the claim as stated fails: the `u32`
subtraction `2399 - 2400` wraps around (the wrapped intermediate is
`2^32 - 1`), and under overflow-checked semantics `from_mhz` panics
(modelled as `none`) rather than completing with a `ValueOutOfBounds`
rejection. -/
theorem from_mhz_underflow_cex :
    u32WrapSub 2399 2400 = 4294967295 ∧
    u32WrapSub 2399 2400 ≠ 0 ∧
    Frequency.from_mhzChecked 2399 = none ∧
    ¬ Frequency.from_mhzChecked 2399 = some none := by
  refine ⟨by decide, by decide, by decide, by decide⟩

/-- C3 (confirmed): for every MHz value `v` in `[2400, 2500]`,
`Frequency::from_mhz v` succeeds and `Frequency::as_mhz` maps the result
back to exactly `v` (round-trip law). -/
theorem from_mhz_roundtrip (v : Nat) (h1 : 2400 ≤ v) (h2 : v ≤ 2500) :
    ∃ f : Frequency, Frequency.from_mhz v = some f ∧ f.as_mhz = v := by
  have ht : u32WrapSub v FREQUENCY_OFFSET = v - 2400 := by
    unfold u32WrapSub FREQUENCY_OFFSET u32Size
    omega
  refine ⟨⟨v - 2400⟩, ?_, ?_⟩
  · unfold Frequency.from_mhz
    rw [ht]
    rw [if_pos (by omega)]
  · unfold Frequency.as_mhz FREQUENCY_OFFSET
    show v - 2400 + 2400 = v
    omega

/-- Witness for `from_mhz_roundtrip` at `v = 2450`. -/
theorem from_mhz_roundtrip_witness :
    ∃ f : Frequency, Frequency.from_mhz 2450 = some f ∧ f.as_mhz = 2450 :=
  from_mhz_roundtrip 2450 (by decide) (by decide)

/-- `Address` from src/lib.rs: a logical address, one of eight slots
`A`..`H`, with `#[repr(u8)]` discriminants `0`..`7`. -/
inductive Address where
  | A
  | B
  | C
  | D
  | E
  | F
  | G
  | H
  deriving DecidableEq, Repr

/-- The Rust cast `address as u8`: the `#[repr(u8)]` discriminant of the
address (`A = 0`, ..., `H = 7`). -/
def Address.toU8 : Address → Nat
  | .A => 0
  | .B => 1
  | .C => 2
  | .D => 3
  | .E => 4
  | .F => 5
  | .G => 6
  | .H => 7

/-- `Address::into_rx_address` from src/lib.rs: the single-bit receive
mask `1 << self as u8`. -/
def Address.into_rx_address (a : Address) : Nat := 1 <<< a.toU8

/-- `Address::into_tx_address` from src/lib.rs: the raw transmit
representation `self as u8`. -/
def Address.into_tx_address (a : Address) : Nat := a.toU8

/-- Rust bitwise NOT on `u8` (`!x`), for `n < 256`. -/
def u8not (n : Nat) : Nat := 255 ^^^ n

/-- Observable state of the RXADDRESSES register together with a count of
the register writes issued through `reg_access`, used to model the
receive-address operations of `Radio<Enabled<Receiver>>` in src/lib.rs. -/
structure RxState where
  reg : Nat
  writes : Nat
  deriving DecidableEq, Repr

/-- `Radio::<Enabled<Receiver>>::enable_rx_address` from src/lib.rs: reads
the register and writes back `reg_value | address as u8` (note: the raw
discriminant, not `into_rx_address`). -/
def enable_rx_address (address : Address) (s : RxState) : RxState :=
  { reg := s.reg ||| address.toU8, writes := s.writes + 1 }

/-- `Radio::<Enabled<Receiver>>::disable_rx_address` from src/lib.rs:
reads the register and writes back `reg_value & !(address as u8)`. -/
def disable_rx_address (address : Address) (s : RxState) : RxState :=
  { reg := s.reg &&& u8not address.toU8, writes := s.writes + 1 }

/-- `Radio::<Enabled<Receiver>>::enable_rx_addresses` from src/lib.rs:
returns unchanged on an empty slice, otherwise folds the addresses with
bitwise OR over `x as u8` and issues a single write. -/
def enable_rx_addresses (addresses : List Address) (s : RxState) : RxState :=
  if addresses.isEmpty then s
  else
    { reg := s.reg ||| addresses.foldl (fun acc x => acc ||| x.toU8) 0,
      writes := s.writes + 1 }

/-- `Radio::<Enabled<Receiver>>::disable_rx_addresses` from src/lib.rs:
returns unchanged on an empty slice, otherwise folds the addresses with
bitwise OR over `x as u8` and issues a single write of
`reg_value & !mask`. -/
def disable_rx_addresses (addresses : List Address) (s : RxState) : RxState :=
  if addresses.isEmpty then s
  else
    { reg := s.reg &&& u8not (addresses.foldl (fun acc x => acc ||| x.toU8) 0),
      writes := s.writes + 1 }

/-- `Radio::<Enabled<Receiver>>::rx_addresses` from src/lib.rs: read back
the RXADDRESSES register. -/
def rx_addresses (s : RxState) : Nat := s.reg

/-- C1 (code_bug): starting from an empty enabled set (register `0`),
`enable_rx_addresses [A, C]` writes the register value `2` — the bitwise
OR of the raw discriminants `A as u8 = 0` and `C as u8 = 2` — whereas the
single-bit-mask representation `into_rx_address` of the set `{A, C}` is
`(1 <<< 0) ||| (1 <<< 2) = 5`; the readback therefore does not equal the
set `{A, C}` (address `A` is not recorded at all). -/
theorem enable_rx_addresses_mask_bug :
    rx_addresses (enable_rx_addresses [Address.A, Address.C] ⟨0, 0⟩) = 2 ∧
    Address.into_rx_address Address.A ||| Address.into_rx_address Address.C = 5 ∧
    rx_addresses (enable_rx_addresses [Address.A, Address.C] ⟨0, 0⟩) ≠
      Address.into_rx_address Address.A ||| Address.into_rx_address Address.C := by
  refine ⟨by decide, by decide, by decide⟩

/-- C4 counterexample: with starting register value `1` and address `B`
(raw value `1`), enabling then disabling `B` yields register `0`, not the
original `1` — the cancellation law fails for starting values that already
contain the bits of the address. -/
theorem enable_disable_rx_address_cex :
    rx_addresses (disable_rx_address Address.B
      (enable_rx_address Address.B ⟨1, 0⟩)) = 0 ∧
    rx_addresses (disable_rx_address Address.B
      (enable_rx_address Address.B ⟨1, 0⟩)) ≠ 1 := by
  refine ⟨by decide, by decide⟩

set_option maxRecDepth 4000 in
/-- C4 (corrected): for every 8-bit starting register value and every
logical address, enabling then disabling that address restores the
original register value provided the raw bits of the address were clear in the
starting value; moreover enable and disable are each idempotent (enabling
an already-enabled address, or disabling an already-disabled one, leaves
the observable register unchanged). -/
theorem enable_disable_rx_address_laws (reg : Fin 256) (a : Address) :
    ((reg : Nat) &&& a.toU8 = 0 →
      rx_addresses (disable_rx_address a
        (enable_rx_address a ⟨(reg : Nat), 0⟩)) = (reg : Nat)) ∧
    rx_addresses (enable_rx_address a
        (enable_rx_address a ⟨(reg : Nat), 0⟩)) =
      rx_addresses (enable_rx_address a ⟨(reg : Nat), 0⟩) ∧
    rx_addresses (disable_rx_address a
        (disable_rx_address a ⟨(reg : Nat), 0⟩)) =
      rx_addresses (disable_rx_address a ⟨(reg : Nat), 0⟩) := by
  revert reg
  cases a <;> decide

/-- Witness for `enable_disable_rx_address_laws` at register value `4`
and address `B`. -/
theorem enable_disable_rx_address_laws_witness :
    rx_addresses (disable_rx_address Address.B
      (enable_rx_address Address.B ⟨((4 : Fin 256) : Nat), 0⟩)) =
      ((4 : Fin 256) : Nat) :=
  (enable_disable_rx_address_laws 4 Address.B).1 (by decide)

/-- C5 (confirmed): the batch receive-address operations are a no-op on an
empty list (no register write, state unchanged), and a non-empty batch
operation issues exactly one register write regardless of how many
addresses it covers. -/
theorem batch_rx_addresses_writes (s : RxState) (addresses : List Address) :
    enable_rx_addresses [] s = s ∧
    disable_rx_addresses [] s = s ∧
    (addresses ≠ [] →
      (enable_rx_addresses addresses s).writes = s.writes + 1 ∧
      (disable_rx_addresses addresses s).writes = s.writes + 1) := by
  refine ⟨rfl, rfl, fun h => ?_⟩
  have he : addresses.isEmpty = false := by
    cases addresses
    · exact absurd rfl h
    · rfl
  constructor
  · unfold enable_rx_addresses
    rw [he]
    rfl
  · unfold disable_rx_addresses
    rw [he]
    rfl

/-- Witness for `batch_rx_addresses_writes` with the singleton list
`[A]` and starting state `⟨0, 0⟩`. -/
theorem batch_rx_addresses_writes_witness :
    (enable_rx_addresses [Address.A] ⟨0, 0⟩).writes =
      (⟨0, 0⟩ : RxState).writes + 1 ∧
    (disable_rx_addresses [Address.A] ⟨0, 0⟩).writes =
      (⟨0, 0⟩ : RxState).writes + 1 :=
  (batch_rx_addresses_writes ⟨0, 0⟩ [Address.A]).2.2 (by decide)

/-- `Radio::<T>::wait_for_state_cycles` from src/lib.rs over a stream of
observed hardware states: the loop runs at most `cycles` iterations, each
performing one state read; `idx` is the number of reads already performed.
Returns the loop result together with the total number of reads
performed. -/
def wait_for_state_cycles (stream : Nat → State) (state : State) :
    Nat → Nat → Except Error Unit × Nat
  | 0, idx => (Except.error Error.TimedOut, idx)
  | Nat.succ c, idx =>
    if stream idx = state then (Except.ok (), idx + 1)
    else wait_for_state_cycles stream state c (idx + 1)

/-- C6 (confirmed): a bounded wait with a cycle budget of `0` while the
observed hardware state differs from the target always returns `TimedOut`
and performs zero state reads — in particular at most one. -/
theorem wait_zero_cycles_times_out (stream : Nat → State) (state : State)
    (h : stream 0 ≠ state) :
    (wait_for_state_cycles stream state 0 0).1 = Except.error Error.TimedOut ∧
    (wait_for_state_cycles stream state 0 0).2 = 0 ∧
    (wait_for_state_cycles stream state 0 0).2 ≤ 1 := by
  refine ⟨rfl, rfl, ?_⟩
  show (0 : Nat) ≤ 1
  decide

/-- Witness for `wait_zero_cycles_times_out` on the constant `DISABLED`
stream with target `RX_IDLE`. -/
theorem wait_zero_cycles_times_out_witness :
    (wait_for_state_cycles (fun _ => State.DISABLED) State.RX_IDLE 0 0).1 =
      Except.error Error.TimedOut ∧
    (wait_for_state_cycles (fun _ => State.DISABLED) State.RX_IDLE 0 0).2 = 0 ∧
    (wait_for_state_cycles (fun _ => State.DISABLED) State.RX_IDLE 0 0).2 ≤ 1 :=
  wait_zero_cycles_times_out (fun _ => State.DISABLED) State.RX_IDLE (by decide)

/-- Hardware commands issued through `reg_access` (src/reg_access.rs):
TASKS_DISABLE, TASKS_TXEN, TASKS_RXEN, TASKS_START. -/
inductive Cmd where
  | disableCmd
  | txenCmd
  | rxenCmd
  | startCmd
  deriving DecidableEq, Repr

/-- `Radio::<T>::wait_for_state` from src/lib.rs (the unbounded busy
wait), modelled with fuel: returns the index of the first read at or
after `idx` that observes `state`, or `none` when `fuel` reads do not
suffice (the loop is still spinning). -/
def wait_find (stream : Nat → State) (state : State) :
    Nat → Nat → Option Nat
  | _, 0 => none
  | idx, Nat.succ fuel =>
    if stream idx = state then some idx
    else wait_find stream state (idx + 1) fuel

/-- Result of a completed mode transition: the hardware commands issued,
the hardware state observed by the last confirming read, and the total
number of state reads. -/
structure TransitionResult where
  cmds : List Cmd
  confirmed : State
  reads : Nat
  deriving DecidableEq, Repr

/-- `into_transmitter` from src/lib.rs (macro `impl_into_tx`, also the
body used by `Radio<Disabled>`): issue TASKS_DISABLE, busy-wait for
`DISABLED`, issue TASKS_TXEN, busy-wait for `TX_IDLE`; `none` models the
call still spinning after `fuel` reads in either wait. -/
def into_transmitter (stream : Nat → State) (fuel : Nat) :
    Option TransitionResult :=
  match wait_find stream State.DISABLED 0 fuel with
  | none => none
  | some i1 =>
    match wait_find stream State.TX_IDLE (i1 + 1) fuel with
    | none => none
    | some i2 =>
      some { cmds := [Cmd.disableCmd, Cmd.txenCmd],
             confirmed := stream i2, reads := i2 + 1 }

/-- `into_receiver` from src/lib.rs (macro `impl_into_rx`, also the body
used by `Radio<Disabled>`): issue TASKS_DISABLE, busy-wait for
`DISABLED`, issue TASKS_RXEN, busy-wait for `RX_IDLE`; `none` models the
call still spinning after `fuel` reads in either wait. -/
def into_receiver (stream : Nat → State) (fuel : Nat) :
    Option TransitionResult :=
  match wait_find stream State.DISABLED 0 fuel with
  | none => none
  | some i1 =>
    match wait_find stream State.RX_IDLE (i1 + 1) fuel with
    | none => none
    | some i2 =>
      some { cmds := [Cmd.disableCmd, Cmd.rxenCmd],
             confirmed := stream i2, reads := i2 + 1 }

/-- A successful `wait_find` really observed the target state at the
returned read index. -/
theorem wait_find_observes (stream : Nat → State) (state : State) :
    ∀ (fuel idx j : Nat), wait_find stream state idx fuel = some j →
      stream j = state := by
  intro fuel
  induction fuel with
  | zero =>
    intro idx j h
    exact absurd h (by simp [wait_find])
  | succ n ih =>
    intro idx j h
    unfold wait_find at h
    by_cases hs : stream idx = state
    · rw [if_pos hs] at h
      cases h
      exact hs
    · rw [if_neg hs] at h
      exact ih (idx + 1) j h

/-- Example state stream used to exercise the transition models: one
`DISABLED` observation followed by `TX_IDLE` forever. -/
def txStream : Nat → State :=
  fun i => if i = 0 then State.DISABLED else State.TX_IDLE

/-- Example state stream used to exercise the transition models: one
`DISABLED` observation followed by `RX_IDLE` forever. -/
def rxStream : Nat → State :=
  fun i => if i = 0 then State.DISABLED else State.RX_IDLE

/-- C7 counterexample: on a stream that observes `DISABLED` and then
`TX_IDLE`, `into_transmitter` from the Disabled state completes having
issued the command sequence `[TASKS_DISABLE, TASKS_TXEN]` — the disable
command is among the issued commands, contradicting the claim that no
command other than transmit-enable (in particular no disable command) is
issued. -/
theorem into_transmitter_issues_disable_cex :
    (into_transmitter txStream 2).map TransitionResult.cmds =
      some [Cmd.disableCmd, Cmd.txenCmd] ∧
    Cmd.disableCmd ∈ [Cmd.disableCmd, Cmd.txenCmd] ∧
    ¬ (into_transmitter txStream 2).map TransitionResult.cmds =
      some [Cmd.txenCmd] := by
  refine ⟨by decide, by decide, by decide⟩

/-- C7 (corrected): whenever `into_transmitter` from the Disabled state
completes, it has issued exactly the commands TASKS_DISABLE (with a
confirming wait for `DISABLED`) followed by TASKS_TXEN, and the state
confirmed by its final wait is `TX_IDLE`; no further hardware command is
issued. -/
theorem into_transmitter_protocol (stream : Nat → State) (fuel : Nat)
    (r : TransitionResult) (h : into_transmitter stream fuel = some r) :
    r.cmds = [Cmd.disableCmd, Cmd.txenCmd] ∧ r.confirmed = State.TX_IDLE := by
  unfold into_transmitter at h
  split at h
  · exact Option.noConfusion h
  · rename_i i1 heq1
    split at h
    · exact Option.noConfusion h
    · rename_i i2 heq2
      injection h with h
      subst h
      exact ⟨rfl, wait_find_observes stream State.TX_IDLE fuel (i1 + 1) i2 heq2⟩

/-- Witness for `into_transmitter_protocol` on `txStream` with fuel 2. -/
theorem into_transmitter_protocol_witness :
    TransitionResult.cmds
        ⟨[Cmd.disableCmd, Cmd.txenCmd], State.TX_IDLE, 2⟩ =
      [Cmd.disableCmd, Cmd.txenCmd] ∧
    TransitionResult.confirmed
        ⟨[Cmd.disableCmd, Cmd.txenCmd], State.TX_IDLE, 2⟩ = State.TX_IDLE :=
  into_transmitter_protocol txStream 2
    ⟨[Cmd.disableCmd, Cmd.txenCmd], State.TX_IDLE, 2⟩ (by decide)

/-- C8 (confirmed): whenever `into_receiver` from the Disabled state
completes, the hardware state confirmed by its final wait is `RX_IDLE`
and no other; the transition never completes with any other confirmed
state (and when it does not complete, the model yields `none` — the
unbounded wait is still spinning, matching the only other claim-
permitted outcome). -/
theorem into_receiver_confirms_rx_idle (stream : Nat → State) (fuel : Nat)
    (r : TransitionResult) (h : into_receiver stream fuel = some r) :
    r.confirmed = State.RX_IDLE ∧
    ∀ s : State, s ≠ State.RX_IDLE → r.confirmed ≠ s := by
  unfold into_receiver at h
  split at h
  · exact Option.noConfusion h
  · rename_i i1 heq1
    split at h
    · exact Option.noConfusion h
    · rename_i i2 heq2
      injection h with h
      subst h
      have hc := wait_find_observes stream State.RX_IDLE fuel (i1 + 1) i2 heq2
      exact ⟨hc, fun s hs hcs => hs (hcs ▸ hc)⟩

/-- Witness for `into_receiver_confirms_rx_idle` on `rxStream` with
fuel 2. -/
theorem into_receiver_confirms_rx_idle_witness :
    TransitionResult.confirmed
        ⟨[Cmd.disableCmd, Cmd.rxenCmd], State.RX_IDLE, 2⟩ = State.RX_IDLE :=
  (into_receiver_confirms_rx_idle rxStream 2
    ⟨[Cmd.disableCmd, Cmd.rxenCmd], State.RX_IDLE, 2⟩ (by decide)).1

/-- `MAX_IN_MEMORY_PACKET_LENGTH` from src/packet.rs. -/
def MAX_IN_MEMORY_PACKET_LENGTH : Nat := 254

/-- `MAX_LENGTH_FIELD_BITS` from src/packet.rs. -/
def MAX_LENGTH_FIELD_BITS : Nat := 16

/-- `MAX_S0_LENGTH_BITS` from src/packet.rs. -/
def MAX_S0_LENGTH_BITS : Nat := 8

/-- `MAX_S1_LENGTH_BITS` from src/packet.rs. -/
def MAX_S1_LENGTH_BITS : Nat := 16

/-- `LengthFieldLength` from src/packet.rs: validated bit-length of the
`LENGTH` field. -/
structure LengthFieldLength where
  val : Nat
  deriving DecidableEq, Repr

/-- `S0FieldLength` from src/packet.rs: validated bit-length of the `S0`
field. -/
structure S0FieldLength where
  val : Nat
  deriving DecidableEq, Repr

/-- `S1FieldLength` from src/packet.rs: validated bit-length of the `S1`
field. -/
structure S1FieldLength where
  val : Nat
  deriving DecidableEq, Repr

/-- `LengthFieldLength::from_bits` from src/packet.rs (macro
`create_field_len_struct`): rejects `len > MAX_LENGTH_FIELD_BITS`. -/
def LengthFieldLength.from_bits (len : Nat) : Option LengthFieldLength :=
  if MAX_LENGTH_FIELD_BITS < len then none else some ⟨len⟩

/-- `S0FieldLength::from_bits` from src/packet.rs (macro
`create_field_len_struct`): rejects `len > MAX_S0_LENGTH_BITS`. -/
def S0FieldLength.from_bits (len : Nat) : Option S0FieldLength :=
  if MAX_S0_LENGTH_BITS < len then none else some ⟨len⟩

/-- `S1FieldLength::from_bits` from src/packet.rs (macro
`create_field_len_struct`): rejects `len > MAX_S1_LENGTH_BITS`. -/
def S1FieldLength.from_bits (len : Nat) : Option S1FieldLength :=
  if MAX_S1_LENGTH_BITS < len then none else some ⟨len⟩

/-- C9 (confirmed): each of the three field-length constructors accepts a
bit count equal to exactly its maximum (16, 8, 16 respectively), and
rejects every bit count strictly greater than its maximum. -/
theorem field_len_from_bits_bounds (n : Nat) :
    LengthFieldLength.from_bits 16 = some ⟨16⟩ ∧
    S0FieldLength.from_bits 8 = some ⟨8⟩ ∧
    S1FieldLength.from_bits 16 = some ⟨16⟩ ∧
    (16 < n → LengthFieldLength.from_bits n = none) ∧
    (8 < n → S0FieldLength.from_bits n = none) ∧
    (16 < n → S1FieldLength.from_bits n = none) := by
  refine ⟨by decide, by decide, by decide, fun h => ?_, fun h => ?_, fun h => ?_⟩
  · unfold LengthFieldLength.from_bits MAX_LENGTH_FIELD_BITS
    rw [if_pos h]
  · unfold S0FieldLength.from_bits MAX_S0_LENGTH_BITS
    rw [if_pos h]
  · unfold S1FieldLength.from_bits MAX_S1_LENGTH_BITS
    rw [if_pos h]

/-- Witness for `field_len_from_bits_bounds` at `n = 17`. -/
theorem field_len_from_bits_bounds_witness :
    LengthFieldLength.from_bits 17 = none ∧
    S0FieldLength.from_bits 17 = none ∧
    S1FieldLength.from_bits 17 = none :=
  ⟨(field_len_from_bits_bounds 17).2.2.2.1 (by decide),
   (field_len_from_bits_bounds 17).2.2.2.2.1 (by decide),
   (field_len_from_bits_bounds 17).2.2.2.2.2 (by decide)⟩

/-- `Packet` from src/packet.rs: the 254-byte buffer together with the
three configured field lengths. -/
structure Packet where
  buffer : List Nat
  lf_len : LengthFieldLength
  s0_len : S0FieldLength
  s1_len : S1FieldLength
  deriving DecidableEq, Repr

/-- `Packet::new_zeroed` from src/packet.rs: a zeroed buffer and
default (zero) field lengths. -/
def Packet.new_zeroed : Packet :=
  { buffer := List.replicate MAX_IN_MEMORY_PACKET_LENGTH 0,
    lf_len := ⟨0⟩, s0_len := ⟨0⟩, s1_len := ⟨0⟩ }

/-- `Radio::<Enabled<Receiver>>::receive_packet` from src/lib.rs,
abstracted over the stream of results produced by the inner
`receive_packet_with_timeout(u32::MAX)` calls (each hardware state
sequence induces one such result per iteration): on `Err(TimedOut)` the
loop retries; on any other `Err(e)` the `r?` operator returns `Err(e)`;
on `Ok(p)` the value of `r?` is discarded and the loop repeats. `none`
models the loop still running after `fuel` iterations. -/
def receive_packet_loop (inner : Nat → Except Error Packet) :
    Nat → Nat → Option (Except Error Packet)
  | _, 0 => none
  | i, Nat.succ fuel =>
    match inner i with
    | Except.error Error.TimedOut => receive_packet_loop inner (i + 1) fuel
    | Except.error e => some (Except.error e)
    | Except.ok _ => receive_packet_loop inner (i + 1) fuel

/-- Helper generalising over the starting iteration index: whatever the
inner results, when `receive_packet_loop` returns it returns an error
distinct from `TimedOut`, never a packet. -/
theorem receive_packet_loop_never_ok (inner : Nat → Except Error Packet) :
    ∀ (fuel i : Nat) (r : Except Error Packet),
      receive_packet_loop inner i fuel = some r →
      (∀ p : Packet, r ≠ Except.ok p) ∧
      (∀ e : Error, r = Except.error e → e ≠ Error.TimedOut) := by
  intro fuel
  induction fuel with
  | zero =>
    intro i r h
    exact Option.noConfusion h
  | succ n ih =>
    intro i r h
    unfold receive_packet_loop at h
    cases hi : inner i with
    | error e =>
      rw [hi] at h
      cases e with
      | UnknownState =>
        injection h with h
        subst h
        exact ⟨fun p hp => Except.noConfusion hp,
               fun e he hTO => by
                 injection he with he
                 subst he
                 exact Error.noConfusion hTO⟩
      | TimedOut => exact ih (i + 1) r h
      | ValueOutOfBounds =>
        injection h with h
        subst h
        exact ⟨fun p hp => Except.noConfusion hp,
               fun e he hTO => by
                 injection he with he
                 subst he
                 exact Error.noConfusion hTO⟩
    | ok p =>
      rw [hi] at h
      exact ih (i + 1) r h

/-- C10 (confirmed): for every sequence of inner results — hence for
every sequence of observed hardware states — `receive_packet` never
returns `Ok` with a packet: a successful inner receive is discarded and
the loop repeats, so a completed call only propagates an error distinct
from `TimedOut`. -/
theorem receive_packet_never_ok (inner : Nat → Except Error Packet)
    (fuel : Nat) (r : Except Error Packet)
    (h : receive_packet_loop inner 0 fuel = some r) :
    (∀ p : Packet, r ≠ Except.ok p) ∧
    (∀ e : Error, r = Except.error e → e ≠ Error.TimedOut) :=
  receive_packet_loop_never_ok inner fuel 0 r h

/-- Witness for `receive_packet_never_ok` with a constant
`UnknownState`-failing inner call and fuel 1. -/
theorem receive_packet_never_ok_witness :
    (Except.error Error.UnknownState : Except Error Packet) ≠
      Except.ok Packet.new_zeroed :=
  (receive_packet_never_ok (fun _ => Except.error Error.UnknownState) 1
    (Except.error Error.UnknownState) rfl).1 Packet.new_zeroed

end NrfRadio
